import Mathlib

/-!
Shallow embedding of `src/process-roll-images.py` (pianoroll/roll-wrangler).

Python strings are Lean `String`s; the string manipulation primitives used by
the script (`str.split`, `str.endswith`, `pathlib.Path.suffix`, the two
`re.search` calls) are re-implemented below as structurally recursive
functions over `List Char`, so that every definition is executable and
kernel-reducible.  Python exceptions are modelled with `Except PyErr` (or an
explicit `Option PyErr` field where side effects before the raise matter);
a raised exception propagates exactly where the source has no `try`.
External collaborators (the network, `lxml.etree.fromstring`, the
`tiff2holes` / `binasc` / `midi2exp` subprocesses) are modelled as oracle
parameters; image pixel data is an inductive `Img` that records the flip
operations applied to the raw downloaded bytes.
-/

namespace RollWrangler

/-! ### String machinery (Python `str` operations, kernel-reducible) -/

/-- Split a character list at every occurrence of the character `c`
(Python `s.split(c)` for a single-character separator). -/
def splitCharL (c : Char) : List Char → List (List Char)
  | [] => [[]]
  | x :: xs =>
    match splitCharL c xs with
    | h :: t => if x = c then [] :: h :: t else (x :: h) :: t
    | [] => [[]]

/-- Join lines with a newline separator (inverse of splitting on `'\n'`). -/
def joinLines : List (List Char) → List Char
  | [] => []
  | [l] => l
  | l :: rest => l ++ '\n' :: joinLines rest

/-- Python `s.split("\n@")[0]`: the portion of `s` before the first
occurrence of the two-character separator `"\n@"`. -/
def takeToNlAt : List Char → List Char
  | [] => []
  | [c] => [c]
  | c1 :: c2 :: cs =>
    if c1 = '\n' ∧ c2 = '@' then [] else c1 :: takeToNlAt (c2 :: cs)

/-- Fuel-driven worker for Python `str.split(sep)` with a non-empty
separator: leftmost, non-overlapping occurrences. -/
def pySplitAux (pat : List Char) : Nat → List Char → List (List Char)
  | 0, cs => [cs]
  | _ + 1, [] => [[]]
  | n + 1, c :: cs =>
    if pat.isPrefixOf (c :: cs) then
      [] :: pySplitAux pat n (List.drop pat.length (c :: cs))
    else
      match pySplitAux pat n cs with
      | h :: t => (c :: h) :: t
      | [] => [[c]]

/-- Python `s.split(sep)` for a non-empty separator `pat`. -/
def pySplitS (pat s : String) : List String :=
  if pat.data = [] then [s]
  else (pySplitAux pat.data (s.data.length + 1) s.data).map (fun l => ⟨l⟩)

/-- Python `s.endswith(suffixStr)`. -/
def endsWithS (s suffixStr : String) : Bool :=
  suffixStr.data.isSuffixOf s.data

/-- Python `s.split('/')[-1]` (the last path component of a URL or path). -/
def lastComponentS (s : String) : String :=
  ⟨(splitCharL '/' s.data).getLastD []⟩

/-- Python `pathlib.Path(p).suffix`: the extension of the last component,
including the dot; empty when the last dot is the first or last character
of the name (pathlib's rule `0 < i < len(name) - 1`). -/
def pathSuffixS (p : String) : String :=
  let name := (splitCharL '/' p.data).getLastD []
  let rev := name.reverse
  match rev.findIdx? (fun c => c = '.') with
  | none => ""
  | some i =>
    if 0 < i ∧ i < name.length - 1 then ⟨(rev.take (i + 1)).reverse⟩ else ""

/-- First-match association-list lookup, keyed by strings.  Models both a
Python dict lookup over our static tables and the state of an on-disk file
tree (most recent write shadows older ones). -/
def lookupS {α : Type} : List (String × α) → String → Option α
  | [], _ => none
  | (k, v) :: rest, q => if k = q then some v else lookupS rest q

/-- The lines strictly after the first line that is exactly `marker`
(`none` when no line equals the marker). -/
def findMarkerLines (marker : List Char) : List (List Char) → Option (List (List Char))
  | [] => none
  | l :: rest => if l = marker then some rest else findMarkerLines marker rest

/-- Python `re.search(r"^MARKER$(.*)", contents, re.M | re.S).group(1)`:
everything after the first line that is exactly `marker` (including the
newline that terminated the marker line), or `none` when the regex does not
match (in which case the source raises `AttributeError` on `.group`). -/
def findMarkerRest (marker contents : String) : Option String :=
  match findMarkerLines marker.data (splitCharL '\n' contents.data) with
  | none => none
  | some [] => some ""
  | some ls => some ⟨'\n' :: joinLines ls⟩

/-- Decidable equality for `Except`, so that runs of the embedded code can
be compared by `decide`. -/
instance {ε α : Type} [DecidableEq ε] [DecidableEq α] : DecidableEq (Except ε α)
  | Except.error e, Except.error f => decidable_of_iff (e = f) (by simp)
  | Except.error _, Except.ok _ => isFalse (by simp)
  | Except.ok _, Except.error _ => isFalse (by simp)
  | Except.ok a, Except.ok b => decidable_of_iff (a = b) (by simp)

/-! ### Python exceptions -/

/-- The Python exception kinds that the modelled code paths can raise. -/
inductive PyErr
  | attributeError
  | indexError
  | keyError
  | fileNotFoundError
  | netErr
  deriving DecidableEq, Repr

/-! ### Static tables (verbatim from the source) -/

def ROLL_TYPES : List String :=
  ["welte-red", "88-note", "65-note", "welte-green", "welte-licensee", "duo-art"]

def ROLL_TYPE_ENTRIES : List (String × String) :=
  [("Welte-Mignon red roll (T-100)", "welte-red"),
   ("Welte-Mignon red roll (T-100).", "welte-red"),
   ("Welte-Mignon red roll (T-100)..", "welte-red"),
   ("Scale: 88n", "88-note"),
   ("Scale: 88n.", "88-note"),
   ("Scale: 65n.", "65-note"),
   ("88n", "88-note"),
   ("65n", "65-note"),
   ("standard", "88-note"),
   ("non-reproducing", "88-note"),
   ("Welte-Mignon green roll (T-98)", "welte-green"),
   ("Welte-Mignon green roll (T-98).", "welte-green"),
   ("Welte-Mignon licensee roll", "welte-licensee"),
   ("Welte-Mignon licensee roll.", "welte-licensee"),
   ("Welte-Mignon licensee roll (T-98).", "welte-licensee"),
   ("Duo-Art piano rolls", "duo-art"),
   ("Duo-Art piano rolls.", "duo-art")]

def REVERSED_IMAGES : List String :=
  ["yt837kd6607", "ws749sk4778", "hs635sh6729", "zw485gh6070", "xr682fm1233",
   "mx460bt7026", "cs175wr2428", "bz327kz4744", "wv912mm2332", "jw822wm2644",
   "fv104hn7521", "fy803vj4057", "kz379jn2491"]

def IGNORE_REWIND_HOLE : List String :=
  ["mh156nr8259", "cd381jt9273", "qw257qp8232"]

def MANUAL_ALIGNMENT_CORRECTIONS : List (String × Int) := []

def ROLLS_TO_SKIP : List String :=
  ["rr052wh1991", "zf037wk3650", "hm136vg1420", "df354sy6634", "sm367hr9769",
   "xc735nd8093"]

/-! ### Catalog record resolver (`get_roll_type_for_druid`, lines 128-194)

The MODS document produced by `lxml.etree.fromstring` is abstracted to the
three pieces of it the classifier reads: the two labelled
`physicalDescription` notes and the list of free-text `note` elements
(`note.text` can be Python `None`, hence `Option String`).  The parser
itself is an oracle `fromstring : String → Option ModsTree`; `none` models
an `etree.XMLSyntaxError` (the only exception the source catches). -/

structure ModsTree where
  type_note : Option String
  scale_note : Option String
  notes : List (Option String)
  deriving DecidableEq, Repr

/-- Classification logic of lines 166-193, operating on the parsed tree. -/
def classify_mods (t : ModsTree) : String :=
  let roll_type := "NA"
  let roll_type :=
    match t.type_note with
    | some tn =>
      match lookupS ROLL_TYPE_ENTRIES tn with
      | some v => v
      | none => roll_type
    | none => roll_type
  let roll_type :=
    match t.scale_note with
    | some sn =>
      match lookupS ROLL_TYPE_ENTRIES sn with
      | some v =>
        if roll_type = "NA" ∨ t.type_note = some "standard" then v else roll_type
      | none => roll_type
    | none => roll_type
  if roll_type = "NA" ∨ t.type_note = some "standard" then
    t.notes.foldl
      (fun acc n =>
        match n with
        | some txt =>
          match lookupS ROLL_TYPE_ENTRIES txt with
          | some v => if v ≠ "88-note" ∨ acc = "NA" then v else acc
          | none => acc
        | none => acc)
      roll_type
  else roll_type

/-- Lines 153-157: `"<mods" + xml_data.split("<mods")[1].split("</mods>")[0]
+ "</mods>"`.  Returns `none` when `"<mods"` does not occur, in which case
the subscript `[1]` raises `IndexError` (which the `except
etree.XMLSyntaxError` clause does not catch). -/
def modsExtract (xml_data : String) : Option String :=
  match pySplitS "<mods" xml_data with
  | _ :: p1 :: _ =>
    some ("<mods" ++ (pySplitS "</mods>" p1).headD "" ++ "</mods>")
  | _ => none

/-- Result of `get_roll_type_for_druid`: the content written to
`xml/<druid>.xml` when the metadata was (re)fetched, and the function's
return value (`none` models Python `None`, returned on a parse failure). -/
structure GrtOut where
  written : Option String
  result : Option String
  deriving DecidableEq, Repr

/-- Lines 128-194.  `net_xml` models `requests.get(PURL + druid + ".xml")`
(an `Except.error` is an uncaught network exception), `cached` is the
current content of `xml/<druid>.xml`. -/
def get_roll_type_for_druid (druid : String) (redownload_xml : Bool)
    (net_xml : Except PyErr String) (fromstring : String → Option ModsTree)
    (cached : Option String) : Except PyErr GrtOut :=
  let fetched : Except PyErr (String × Option String) :=
    match cached, redownload_xml with
    | some c, false => Except.ok (c, none)
    | _, _ =>
      match net_xml with
      | Except.error e => Except.error e
      | Except.ok t => Except.ok (t, some t)
  match fetched with
  | Except.error e => Except.error e
  | Except.ok (xml_data, written) =>
    match modsExtract xml_data with
    | none => Except.error PyErr.indexError
    | some m =>
      match fromstring m with
      | none => Except.ok ⟨written, none⟩
      | some tree => Except.ok ⟨written, some (classify_mods tree)⟩

/-! ### Manifest resolver (`get_image_url`, lines 218-269)

A IIIF rendering dict is abstracted to the three keys the code reads
(`"@id"`, `"id"`, `"format"`); a missing key raises `KeyError` exactly
where the source subscripts the dict.  The three tolerated sequence shapes
become the constructors of `SeqShape`; `canvases` carries each canvas's
`"rendering"` list, of which the comprehension takes element `[0]`
(raising `IndexError` when empty). -/

structure Rendering where
  atId : Option String
  idKey : Option String
  format : Option String
  deriving DecidableEq, Repr

inductive SeqShape
  | renderings (rs : List Rendering)
  | rendering (rs : List Rendering)
  | canvases (cs : List (List Rendering))
  | bare
  deriving DecidableEq, Repr

structure Manifest where
  sequences : Option (List SeqShape)
  items : Option (List SeqShape)
  deriving DecidableEq, Repr

/-- Lines 254-257: `(r["@id"].endswith("_ir_sp.jp2") or
r["@id"].endswith("_gs.jp2")) and r["format"] == "image/jp2"`. -/
def rendering_matches_jp2 (r : Rendering) : Except PyErr Bool :=
  match r.atId with
  | none => Except.error PyErr.keyError
  | some aid =>
    if endsWithS aid "_ir_sp.jp2" || endsWithS aid "_gs.jp2" then
      match r.format with
      | none => Except.error PyErr.keyError
      | some f => Except.ok (f == "image/jp2")
    else Except.ok false

/-- Lines 259-265: `(r["@id"].endswith("_gr.tiff") or
r["@id"].endswith("_gr.tif")) and (r["format"] == "image/tiff" or
r["format"] == "image/x-tiff-big")`. -/
def rendering_matches_tiff (r : Rendering) : Except PyErr Bool :=
  match r.atId with
  | none => Except.error PyErr.keyError
  | some aid =>
    if endsWithS aid "_gr.tiff" || endsWithS aid "_gr.tif" then
      match r.format with
      | none => Except.error PyErr.keyError
      | some f => Except.ok (f == "image/tiff" || f == "image/x-tiff-big")
    else Except.ok false

/-- The `for rendering in renderings` loop of lines 253-266: each entry is
tested against the jp2 rule and then the tiff rule; first match wins. -/
def scan_renderings : List Rendering → Except PyErr (Option String)
  | [] => Except.ok none
  | r :: rest =>
    match rendering_matches_jp2 r with
    | Except.error e => Except.error e
    | Except.ok true => Except.ok r.atId
    | Except.ok false =>
      match rendering_matches_tiff r with
      | Except.error e => Except.error e
      | Except.ok true => Except.ok r.atId
      | Except.ok false => scan_renderings rest

/-- Lines 236-244: extract the per-sequence candidate rendition list
(`none` means the sequence has neither key nor canvases: `continue`). -/
def seq_renderings : SeqShape → Except PyErr (Option (List Rendering))
  | SeqShape.renderings rs => Except.ok (some rs)
  | SeqShape.rendering rs => Except.ok (some rs)
  | SeqShape.canvases cs =>
    match cs.mapM List.head? with
    | none => Except.error PyErr.indexError
    | some rs => Except.ok (some rs)
  | SeqShape.bare => Except.ok none

/-- The `for seq in seqs` loop of lines 236-266, including the
single-rendering early return of lines 247-251 (which falls through to the
scan when the lone entry has neither an `"id"` nor an `"@id"` key). -/
def get_image_url_seqs : List SeqShape → Except PyErr (Option String)
  | [] => Except.ok none
  | s :: rest =>
    match seq_renderings s with
    | Except.error e => Except.error e
    | Except.ok none => get_image_url_seqs rest
    | Except.ok (some rs) =>
      let single : Option String :=
        if rs.length == 1 then
          match (rs.headD ⟨none, none, none⟩).idKey with
          | some v => some v
          | none =>
            match (rs.headD ⟨none, none, none⟩).atId with
            | some v => some v
            | none => none
        else none
      match single with
      | some ans => Except.ok (some ans)
      | none =>
        match scan_renderings rs with
        | Except.error e => Except.error e
        | Except.ok (some u) => Except.ok (some u)
        | Except.ok none => get_image_url_seqs rest

/-- Lines 218-269.  Returns `Except.ok none` where the source logs an error
and returns `None`. -/
def get_image_url (m : Option Manifest) : Except PyErr (Option String) :=
  match m with
  | none => Except.ok none
  | some man =>
    match man.sequences, man.items with
    | none, none => Except.ok none
    | some seqs, _ => get_image_url_seqs seqs
    | none, some seqs => get_image_url_seqs seqs

/-! ### Asset acquisition (`get_roll_image`, lines 301-395)

Pixel content is tracked symbolically: `Img.raw` is the byte stream the
network delivered (or a pre-existing local file), and the two `PIL`
transposes wrap it.  The JPEG2000 `decode` / `Image.fromarray` / `save`
round trip preserves pixel orientation and so is the identity on `Img`.
The `images/` directory is an association list of path to content, most
recent write first. -/

inductive Img
  | raw (tag : String)
  | flipLR (i : Img)
  | flipTB (i : Img)
  deriving DecidableEq, Repr

/-- Number of left-right mirrorings applied on top of the raw bytes. -/
def lrCount : Img → Nat
  | Img.raw _ => 0
  | Img.flipLR i => lrCount i + 1
  | Img.flipTB i => lrCount i

/-- The `images/` cache: path to pixel content, most recent write first. -/
abbrev ImgFS := List (String × Img)

/-- Lines 387-395: open the file, transpose left-right, save in place.
`Image.open` on a missing file raises `FileNotFoundError`. -/
def flip_image_left_right (fs : ImgFS) (image_filepath : String) :
    Except PyErr ImgFS :=
  match lookupS fs image_filepath with
  | none => Except.error PyErr.fileNotFoundError
  | some i => Except.ok ((image_filepath, Img.flipLR i) :: fs)

/-- Lines 318-384.  `net_image` models `request_image` (lines 301-315):
`none` is a failed download (non-200 status, logged, no file written).
When `image_url` is Python `None`, line 333 evaluates
`image_url.split('/')`, raising `AttributeError`.  Every error path of
this function leaves the filesystem untouched, so `Except` loses no
side effects. -/
def get_roll_image (druid : String) (image_url : Option String)
    (roll_type : Option String)
    (redownload_image mirror_roll gen2scan : Bool)
    (net_image : String → Option Img) (fs : ImgFS) :
    Except PyErr (ImgFS × String) :=
  match image_url with
  | none => Except.error PyErr.attributeError
  | some url =>
    let target_pathname : String := "images/" ++ lastComponentS url
    let image_filepath : String := "images/" ++ druid ++ ".tiff"
    let source_filepath : String :=
      if endsWithS url ".jp2" then "images/" ++ druid ++ ".jp2"
      else target_pathname
    -- lines 343-348: cached remote TIFF, return immediately
    if ¬redownload_image ∧ (lookupS fs target_pathname).isSome = true ∧
        (pathSuffixS target_pathname = ".tiff" ∨ pathSuffixS target_pathname = ".tif") then
      Except.ok (fs, target_pathname)
    else
      let step : Except PyErr (ImgFS × String × Bool) :=
        -- lines 351-379: (re)materialize images/<druid>.tiff
        if (lookupS fs image_filepath).isSome = false ∨ redownload_image then
          let (source_filepath, image_filepath) :=
            if pathSuffixS target_pathname = ".tiff" ∨ pathSuffixS target_pathname = ".tif" then
              (target_pathname, target_pathname)
            else (source_filepath, image_filepath)
          let fsA : ImgFS :=
            if endsWithS url ".jp2" ∧ (lookupS fs source_filepath).isSome = true then
              fs  -- "JPEG2000 already downloaded"
            else
              match net_image url with
              | some img => (source_filepath, img) :: fs
              | none => fs
          let fsB : Except PyErr ImgFS :=
            if endsWithS url ".jp2" then
              -- lines 366-374: decode, conditional top-bottom flip, save
              match lookupS fsA source_filepath with
              | none => Except.error PyErr.fileNotFoundError
              | some img =>
                let img2 :=
                  if gen2scan ∨ ¬(roll_type = some "welte-red") then Img.flipTB img
                  else img
                Except.ok ((image_filepath, img2) :: fsA)
            else Except.ok fsA
          match fsB with
          | Except.error e => Except.error e
          | Except.ok fsB =>
            -- lines 377-379: known-reversed rolls are flipped on first download
            if druid ∈ REVERSED_IMAGES then
              match flip_image_left_right fsB image_filepath with
              | Except.error e => Except.error e
              | Except.ok fsC => Except.ok (fsC, image_filepath, true)
            else Except.ok (fsB, image_filepath, false)
        else Except.ok (fs, image_filepath, false)
      match step with
      | Except.error e => Except.error e
      | Except.ok (fs2, image_filepath2, image_already_mirrored) =>
        -- lines 382-383: explicit mirror, suppressed if already mirrored
        if mirror_roll ∧ image_already_mirrored = false then
          match flip_image_left_right fs2 image_filepath2 with
          | Except.error e => Except.error e
          | Except.ok fs3 => Except.ok (fs3, image_filepath2)
        else Except.ok (fs2, image_filepath2)

/-! ### Analysis invoker (`parse_roll_image`, lines 398-445) -/

/-- Lines 424-435: the mutually exclusive classification switch.  The
source's `roll_type` variable is a Python string or `None` (the value
`get_roll_type_for_druid` returns on parse failure), hence `Option`. -/
def t2h_classification_switch (roll_type : Option String) : String :=
  if roll_type = some "welte-red" then "-r"
  else if roll_type = some "88-note" then "-8"
  else if roll_type = some "65-note" then "-5"
  else if roll_type = some "welte-green" then "-g"
  else if roll_type = some "welte-licensee" then "-l"
  else if roll_type = some "duo-art" then "-d"
  else ""

/-- Lines 418-441: construction of the `tiff2holes` switch string. -/
def t2h_switches (druid : String) (roll_type : Option String)
    (ignore_rewind_hole is_monochrome gen2scan : Bool) : String :=
  let s := if is_monochrome ∧ ¬gen2scan then "-m " else ""
  let s := s ++ t2h_classification_switch roll_type
  let s := if ignore_rewind_hole then s ++ " -s" else s
  match lookupS MANUAL_ALIGNMENT_CORRECTIONS druid with
  | some v => s ++ " --alignment-shift=" ++ toString v
  | none => s

/-- Lines 398-445.  Returns the shell command run and the report content
the analyzer (oracle `analyzer_output`) writes to `txt/<druid>.txt`, or
`none` when the invocation is skipped (missing executable, missing image,
or unknown roll type). -/
def parse_roll_image (druid : String) (image_filepath : Option String)
    (roll_type : Option String) (ignore_rewind_hole : Bool)
    (tiff2holesExists : Bool) (is_monochrome gen2scan : Bool)
    (analyzer_output : String) : Option (String × String) :=
  if ¬tiff2holesExists then none
  else if image_filepath = none ∨ roll_type = some "NA" then none
  else
    some ("../roll-image-parser/bin/tiff2holes " ++
            t2h_switches druid roll_type ignore_rewind_hole is_monochrome gen2scan ++
            " " ++ image_filepath.getD "" ++ " > txt/" ++ druid ++ ".txt 2> logs/" ++
            druid ++ ".err",
          analyzer_output)

/-! ### Payload extractor (`extract_midi_from_analysis`, lines 448-500) -/

/-- Side effects of `extract_midi_from_analysis` /
`convert_binasc_to_midi`: text files written under `binasc/`, shell
commands run, binary MIDI outputs produced by those commands (the opaque
`binasc` converter is assumed to produce its output file, matching the
source's convention of inferring success from file existence), and the
exception the call raised, if any — the effects listed before it still
happened. -/
structure ExtractResult where
  writes : List (String × String)
  cmds : List String
  midiOuts : List String
  err : Option PyErr
  deriving DecidableEq, Repr

/-- Lines 448-462: write `binasc/<druid>_<type>.binasc`, then run the
converter.  When the `binasc` executable is missing the function returns
before writing anything. -/
def convert_binasc_to_midi (binasc_data druid midi_type : String)
    (binascExists : Bool) : ExtractResult :=
  if ¬binascExists then ⟨[], [], [], none⟩
  else
    ⟨[("binasc/" ++ druid ++ "_" ++ midi_type ++ ".binasc", binasc_data)],
     ["../binasc/binasc binasc/" ++ druid ++ "_" ++ midi_type ++ ".binasc -c midi/" ++
        midi_type ++ "/" ++ druid ++ "_" ++ midi_type ++ ".mid"],
     ["midi/" ++ midi_type ++ "/" ++ druid ++ "_" ++ midi_type ++ ".mid"],
     none⟩

/-- Lines 465-500.  `report` is the content of `txt/<druid>.txt` (`none`
when the file does not exist), `noteMidExists` whether
`midi/note/<druid>_note.mid` exists.  When a marker regex does not match,
`re.search(...)` is `None` and `.group(1)` raises `AttributeError`;
effects already performed (the raw conversion, when only `@MIDIFILE:` is
missing) are recorded alongside the error. -/
def extract_midi_from_analysis (druid : String) (regenerate_midi : Bool)
    (binascExists : Bool) (report : Option String) (noteMidExists : Bool) :
    ExtractResult :=
  match report with
  | none => ⟨[], [], [], none⟩
  | some contents =>
    if ¬regenerate_midi ∧ noteMidExists then ⟨[], [], [], none⟩
    else
      match findMarkerRest "@HOLE_MIDIFILE:" contents with
      | none => ⟨[], [], [], some PyErr.attributeError⟩
      | some rest1 =>
        let holes_data : String := ⟨takeToNlAt rest1.data⟩
        let r1 := convert_binasc_to_midi holes_data druid "raw" binascExists
        match findMarkerRest "@MIDIFILE:" contents with
        | none => ⟨r1.writes, r1.cmds, r1.midiOuts, some PyErr.attributeError⟩
        | some rest2 =>
          let notes_data : String := ⟨takeToNlAt rest2.data⟩
          let r2 := convert_binasc_to_midi notes_data druid "note" binascExists
          ⟨r1.writes ++ r2.writes, r1.cmds ++ r2.cmds, r1.midiOuts ++ r2.midiOuts,
           none⟩

/-! ### Expression synthesizer invoker (`apply_midi_expressions`, lines 503-538) -/

/-- Lines 519-532: the `midi2exp` switch string. -/
def m2e_switches (roll_type : Option String) : String :=
  let s := "-r -adjust-hole-lengths"
  if roll_type = some "welte-red" then s ++ " -w"
  else if roll_type = some "welte-green" then s ++ " -g"
  else if roll_type = some "welte-licensee" then s ++ " -l"
  else if roll_type = some "88-note" then s ++ " -h"
  else if roll_type = some "duo-art" then s ++ " -u"
  else s

/-- Lines 503-538: returns the command run, or `none` when skipped
(missing executable, missing note MIDI, or the excluded 65-note type). -/
def apply_midi_expressions (druid : String) (roll_type : Option String)
    (midi2expExists noteMidExists : Bool) : Option String :=
  if ¬midi2expExists then none
  else if ¬noteMidExists then none
  else if roll_type = some "65-note" then none
  else
    some ("../midi2exp/bin/midi2exp " ++ m2e_switches roll_type ++
          " midi/note/" ++ druid ++ "_note.mid midi/exp/" ++ druid ++ "_exp.mid")

/-! ### Orchestrator (`main`, lines 541-693)

`World` is the mutable state a run threads through: the on-disk caches,
the log of shell commands, and the list of identifiers whose processing
was started (the "Downloading and processing ..." log line).  `Net`
bundles the external oracles: network endpoints, the XML parser, the
analyzer's report output, and the presence of the three executables.
Cached manifests are stored parsed (a corrupt cached manifest file, whose
`json.load` would raise uncaught, is not modelled). -/

structure World where
  manifestFiles : List (String × Manifest)
  textFiles : List (String × String)
  imageFiles : ImgFS
  midiFiles : List String
  cmds : List String
  processed : List String
  deriving DecidableEq, Repr

structure Net where
  xml : String → Except PyErr String
  manifest : String → Option Manifest
  image : String → Option Img
  fromstring : String → Option ModsTree
  analyzer : String → String
  tiff2holesExists : Bool
  binascExists : Bool
  midi2expExists : Bool

structure Args where
  roll_type : String
  redownload_manifests : Bool
  redownload_metadata : Bool
  redownload_images : Bool
  reprocess_images : Bool
  mirror_images : Bool
  ignore_rewind_hole : Bool
  regenerate_midi : Bool
  no_expression : Bool
  multichannel_tiffs : Bool
  gen2scan : Bool
  deriving DecidableEq, Repr

/-- Lines 197-215: cached manifest unless absent or `redownload`; the
download branch catches every exception and yields `None`. -/
def get_iiif_manifest (druid : String) (redownload_manifests : Bool)
    (net_manifest : String → Option Manifest) (w : World) :
    Option Manifest × World :=
  let path := "manifests/" ++ druid ++ ".json"
  match lookupS w.manifestFiles path, redownload_manifests with
  | some m, false => (some m, w)
  | _, _ =>
    match net_manifest druid with
    | some m => (some m, { w with manifestFiles := (path, m) :: w.manifestFiles })
    | none => (none, w)

/-- The body of the `for druid in druids` loop (lines 654-689) for one
identifier: the final world and the exception that escaped it, if any.
No `try` protects this body in the source, so any raise aborts the whole
run. -/
def process_druid (args : Args) (net : Net) (w0 : World) (druid : String) :
    World × Option PyErr :=
  let w := { w0 with processed := w0.processed ++ [druid] }
  let (iiif_manifest, w) :=
    get_iiif_manifest druid args.redownload_manifests net.manifest w
  let rtRes : Except PyErr (Option String × World) :=
    if args.roll_type ≠ "NA" then Except.ok (some args.roll_type, w)
    else
      match get_roll_type_for_druid druid args.redownload_metadata (net.xml druid)
          net.fromstring (lookupS w.textFiles ("xml/" ++ druid ++ ".xml")) with
      | Except.error e => Except.error e
      | Except.ok out =>
        let w :=
          match out.written with
          | some c => { w with textFiles := ("xml/" ++ druid ++ ".xml", c) :: w.textFiles }
          | none => w
        Except.ok (out.result, w)
  match rtRes with
  | Except.error e => (w, some e)
  | Except.ok (roll_type, w) =>
    match get_image_url iiif_manifest with
    | Except.error e => (w, some e)
    | Except.ok image_url =>
      match get_roll_image druid image_url roll_type args.redownload_images
          args.mirror_images args.gen2scan net.image w.imageFiles with
      | Except.error e => (w, some e)
      | Except.ok (fs, roll_image) =>
        let w := { w with imageFiles := fs }
        let txtPath := "txt/" ++ druid ++ ".txt"
        let w :=
          if args.reprocess_images ∨
              ((lookupS w.textFiles txtPath).isNone = true ∧ (some roll_image).isSome = true) then
            match parse_roll_image druid (some roll_image) roll_type
                (args.ignore_rewind_hole ∨ druid ∈ IGNORE_REWIND_HOLE)
                net.tiff2holesExists (¬args.multichannel_tiffs) args.gen2scan
                (net.analyzer druid) with
            | some (cmd, rep) =>
              { w with cmds := w.cmds ++ [cmd], textFiles := (txtPath, rep) :: w.textFiles }
            | none => w
          else w
        let er := extract_midi_from_analysis druid args.regenerate_midi
          net.binascExists (lookupS w.textFiles txtPath)
          (w.midiFiles.contains ("midi/note/" ++ druid ++ "_note.mid"))
        let w := { w with textFiles := er.writes ++ w.textFiles,
                          cmds := w.cmds ++ er.cmds,
                          midiFiles := w.midiFiles ++ er.midiOuts }
        match er.err with
        | some e => (w, some e)
        | none =>
          if ¬args.no_expression then
            match apply_midi_expressions druid roll_type net.midi2expExists
                (w.midiFiles.contains ("midi/note/" ++ druid ++ "_note.mid")) with
            | some cmd => ({ w with cmds := w.cmds ++ [cmd] }, none)
            | none => (w, none)
          else (w, none)

/-- Lines 649-689: the orchestrator loop.  Identifiers in `ROLLS_TO_SKIP`
are skipped; otherwise the item is processed, and an exception escaping
`process_druid` aborts the remaining loop (the source wraps nothing in
`try`). -/
def main_loop (args : Args) (net : Net) : List String → World → World × Option PyErr
  | [], w => (w, none)
  | druid :: rest, w =>
    if druid ∈ ROLLS_TO_SKIP then main_loop args net rest w
    else
      match process_druid args net w druid with
      | (w2, none) => main_loop args net rest w2
      | (w2, some e) => (w2, some e)

/-! ### Concrete orchestrator scenario used for the batch-boundary claims

A two-item batch whose first item has a cached manifest (one TIFF
rendering), a cached image, and a cached analysis report that contains no
payload markers; the roll type is supplied on the command line, and
expression application is disabled. -/

def c1Manifest : Manifest :=
  ⟨some [SeqShape.renderings
      [⟨some "https://stacks.stanford.edu/file/ab123cd4567/ab123cd4567_gr.tiff",
        none, some "image/tiff"⟩]], none⟩

def c1Args : Args :=
  ⟨"welte-red", false, false, false, false, false, false, false, true, false, false⟩

def c1Net : Net :=
  ⟨fun _ => Except.ok "", fun _ => none, fun _ => none, fun _ => none, fun _ => "",
   true, true, true⟩

def c1World : World :=
  ⟨[("manifests/ab123cd4567.json", c1Manifest)],
   [("txt/ab123cd4567.txt", "no markers in this report")],
   [("images/ab123cd4567_gr.tiff", Img.raw "src")], [], [], []⟩

/-- `c1World` after processing the first identifier: only the
"Downloading and processing" log entry changed before the
`AttributeError` escaped. -/
def c1World1 : World :=
  ⟨[("manifests/ab123cd4567.json", c1Manifest)],
   [("txt/ab123cd4567.txt", "no markers in this report")],
   [("images/ab123cd4567_gr.tiff", Img.raw "src")], [], [], ["ab123cd4567"]⟩

/-! ## Theorems settling the claims -/

/-- C10: the monochrome channel-mode switch `-m` appears among the
`tiff2holes` switches if and only if the image is monochrome and the
alternate-scanner flag (`gen2scan`) is unset; in particular, with
`gen2scan` set the analyzer is invoked without `-m` even for monochrome
channel mode. -/
theorem c10_monochrome_switch (druid : String) (roll_type : Option String)
    (ignore_rewind_hole is_monochrome gen2scan : Bool) :
    ((splitCharL ' '
        (t2h_switches druid roll_type ignore_rewind_hole is_monochrome gen2scan).data).contains
      "-m".data) = (is_monochrome && !gen2scan) := by
  have hcs : t2h_classification_switch roll_type = "-r" ∨
      t2h_classification_switch roll_type = "-8" ∨
      t2h_classification_switch roll_type = "-5" ∨
      t2h_classification_switch roll_type = "-g" ∨
      t2h_classification_switch roll_type = "-l" ∨
      t2h_classification_switch roll_type = "-d" ∨
      t2h_classification_switch roll_type = "" := by
    unfold t2h_classification_switch
    repeat' split
    all_goals simp
  rcases hcs with h | h | h | h | h | h | h <;>
    cases is_monochrome <;> cases gen2scan <;> cases ignore_rewind_hole <;>
      (simp only [t2h_switches, lookupS, h]; decide)

/-- C4: when the asset reference is `None`, `get_roll_image` raises
`AttributeError` immediately (line 333 evaluates `image_url.split('/')` on
`None`), instead of falling back to a local file and returning null on
failure as its own docstring describes. -/
theorem c4_null_asset_raises (druid : String) (roll_type : Option String)
    (redownload_image mirror_roll gen2scan : Bool)
    (net_image : String → Option Img) (fs : ImgFS) :
    get_roll_image druid none roll_type redownload_image mirror_roll gen2scan
      net_image fs = Except.error PyErr.attributeError := rfl

/-- C5 counterexample: on the exact report text
`"@HOLE_MIDIFILE:\nAABB\n\n@MIDIFILE:\nCCDD\n\n"`, the raw intermediate
artifact's content is `"\nAABB\n"`, which is neither `AABB` followed by a
trailing blank line (`"AABB\n\n"`) nor plain `"AABB\n"`, and does not end
with a blank line. -/
theorem c5_counterexample :
    (extract_midi_from_analysis "ab123cd4567" false true
        (some "@HOLE_MIDIFILE:\nAABB\n\n@MIDIFILE:\nCCDD\n\n") false).writes =
      [("binasc/ab123cd4567_raw.binasc", "\nAABB\n"),
       ("binasc/ab123cd4567_note.binasc", "\nCCDD\n\n")] ∧
    ("\nAABB\n" : String) ≠ "AABB\n\n" ∧ ("\nAABB\n" : String) ≠ "AABB\n" ∧
    endsWithS "\nAABB\n" "\n\n" = false := by decide

/-- C5 amended: on that report text the raw artifact content is
`"\nAABB\n"` and the note artifact content is `"\nCCDD\n\n"` — each
payload keeps the newline that followed its marker line, the note
artifact ends with a blank line, but the raw artifact's trailing blank
line is consumed by the `"\n@"` section delimiter, leaving only a final
newline. -/
theorem c5_payload_contents :
    extract_midi_from_analysis "ab123cd4567" false true
        (some "@HOLE_MIDIFILE:\nAABB\n\n@MIDIFILE:\nCCDD\n\n") false =
      ⟨[("binasc/ab123cd4567_raw.binasc", "\nAABB\n"),
        ("binasc/ab123cd4567_note.binasc", "\nCCDD\n\n")],
       ["../binasc/binasc binasc/ab123cd4567_raw.binasc -c midi/raw/ab123cd4567_raw.mid",
        "../binasc/binasc binasc/ab123cd4567_note.binasc -c midi/note/ab123cd4567_note.mid"],
       ["midi/raw/ab123cd4567_raw.mid", "midi/note/ab123cd4567_note.mid"], none⟩ ∧
    endsWithS "\nCCDD\n\n" "\n\n" = true ∧
    endsWithS "\nAABB\n" "\n" = true := by decide

/-- C2 counterexample: a report that lacks the `@HOLE_MIDIFILE:` line
makes extraction raise `AttributeError` with no logging and no conversion
of the other (present) payload, instead of skipping only the missing
payload and returning. -/
theorem c2_counterexample :
    extract_midi_from_analysis "ab123cd4567" false true
        (some "@MIDIFILE:\nCCDD\n\n") false =
      ⟨[], [], [], some PyErr.attributeError⟩ := by decide

/-- C2 amended: a missing `@HOLE_MIDIFILE:` line makes extraction raise
`AttributeError` before any conversion; a missing `@MIDIFILE:` line makes
it raise after the raw payload's conversion already ran.  In neither case
is the failure confined to the affected payload. -/
theorem c2_missing_marker_raises (druid contents : String) (binascExists : Bool) :
    (findMarkerRest "@HOLE_MIDIFILE:" contents = none →
        extract_midi_from_analysis druid false binascExists (some contents) false =
          ⟨[], [], [], some PyErr.attributeError⟩) ∧
    (∀ rest1, findMarkerRest "@HOLE_MIDIFILE:" contents = some rest1 →
        findMarkerRest "@MIDIFILE:" contents = none →
        extract_midi_from_analysis druid false binascExists (some contents) false =
          { convert_binasc_to_midi ⟨takeToNlAt rest1.data⟩ druid "raw" binascExists with
              err := some PyErr.attributeError }) := by
  constructor
  · intro h
    simp [extract_midi_from_analysis, h]
  · intro rest1 h1 h2
    simp [extract_midi_from_analysis, h1, h2]

/-- C2 witness: at the concrete report `"@HOLE_MIDIFILE:\nAABB\n\n"` the
raw payload is converted and then the missing `@MIDIFILE:` marker raises. -/
theorem c2_missing_marker_raises_witness :
    extract_midi_from_analysis "ab123cd4567" false true
        (some "@HOLE_MIDIFILE:\nAABB\n\n") false =
      { convert_binasc_to_midi ⟨takeToNlAt ("\nAABB\n\n" : String).data⟩ "ab123cd4567"
          "raw" true with err := some PyErr.attributeError } :=
  (c2_missing_marker_raises "ab123cd4567" "@HOLE_MIDIFILE:\nAABB\n\n" true).2
    "\nAABB\n\n" (by decide) (by decide)

/-- C9 counterexample: with regeneration unset, the existence of the note
MIDI artifact alone decides whether the raw payload is extracted — raw
extraction is skipped when the note artifact exists (first run) and
performed when it does not (second run), with the raw artifact never
consulted, contradicting per-section independent idempotency checks. -/
theorem c9_counterexample :
    extract_midi_from_analysis "ab123cd4567" false true
        (some "@HOLE_MIDIFILE:\nAABB\n\n@MIDIFILE:\nCCDD\n\n") true =
      ⟨[], [], [], none⟩ ∧
    (extract_midi_from_analysis "ab123cd4567" false true
        (some "@HOLE_MIDIFILE:\nAABB\n\n@MIDIFILE:\nCCDD\n\n") false).writes.map
        Prod.fst =
      ["binasc/ab123cd4567_raw.binasc", "binasc/ab123cd4567_note.binasc"] := by decide

/-- C9 amended: a single idempotency check against the note artifact gates
both payload sections together — when the note MIDI exists and
regeneration is not requested both sections are skipped, and otherwise
both run exactly as a forced regeneration would; the raw artifact is
never consulted. -/
theorem c9_single_idempotency_gate (druid : String)
    (regenerate_midi noteMidExists binascExists : Bool) (contents : String) :
    extract_midi_from_analysis druid regenerate_midi binascExists (some contents)
        noteMidExists =
      if regenerate_midi = false ∧ noteMidExists = true then ⟨[], [], [], none⟩
      else extract_midi_from_analysis druid true binascExists (some contents) false := by
  cases regenerate_midi <;> cases noteMidExists <;> rfl

/-- C3 counterexample: with a cached metadata record lacking a `<mods`
element, classification resolution raises `IndexError` past the call; and
on an XML syntax error it returns Python `None` — not the `"NA"` unknown
sentinel. -/
theorem c3_counterexample :
    get_roll_type_for_druid "ab123cd4567" false (Except.ok "") (fun _ => none)
        (some "this record has no mods element") = Except.error PyErr.indexError ∧
    get_roll_type_for_druid "ab123cd4567" false (Except.ok "") (fun _ => none)
        (some "<mods>bad</mods>") = Except.ok ⟨none, none⟩ ∧
    (none : Option String) ≠ some "NA" := by decide

/-- C3 amended: on an XML syntax error classification resolution returns
`None` (a null distinct from the `"NA"` sentinel) without raising; but a
cached or fetched document with no `<mods` element raises `IndexError`,
and a network failure during the fetch raises, past the call. -/
theorem c3_failure_modes (druid xml_data : String)
    (fromstring : String → Option ModsTree) (net_xml : Except PyErr String) :
    (modsExtract xml_data = none →
        get_roll_type_for_druid druid false net_xml fromstring (some xml_data) =
          Except.error PyErr.indexError) ∧
    (∀ m, modsExtract xml_data = some m → fromstring m = none →
        get_roll_type_for_druid druid false net_xml fromstring (some xml_data) =
          Except.ok ⟨none, none⟩) ∧
    (∀ e redownload_xml,
        get_roll_type_for_druid druid redownload_xml (Except.error e) fromstring none =
          Except.error e) := by
  refine ⟨fun h => ?_, fun m h1 h2 => ?_, fun e rd => ?_⟩
  · simp [get_roll_type_for_druid, h]
  · simp [get_roll_type_for_druid, h1, h2]
  · cases rd <;> rfl

/-- C3 witness: the three failure modes at concrete inputs. -/
theorem c3_failure_modes_witness :
    get_roll_type_for_druid "ab123cd4567" false (Except.ok "") (fun _ => none)
        (some "plain text") = Except.error PyErr.indexError ∧
    get_roll_type_for_druid "xy999xy9999" false (Except.ok "") (fun _ => none)
        (some "<mods>a</mods>") = Except.ok ⟨none, none⟩ ∧
    get_roll_type_for_druid "ab123cd4567" true (Except.error PyErr.netErr)
        (fun _ => none) none = Except.error PyErr.netErr :=
  ⟨(c3_failure_modes "ab123cd4567" "plain text" (fun _ => none) (Except.ok "")).1
      (by decide),
   (c3_failure_modes "xy999xy9999" "<mods>a</mods>" (fun _ => none) (Except.ok "")).2.1
      "<mods>a</mods>" (by decide) rfl,
   (c3_failure_modes "ab123cd4567" "x" (fun _ => none) (Except.error PyErr.netErr)).2.2
      PyErr.netErr true⟩

/-- C6 counterexample: a candidate rendition list that contains both a
monochrome-TIFF rendition and a greyscale (`_gs.jp2`) wavelet rendition,
with the TIFF listed first, makes asset selection return the TIFF — the
greyscale/IR wavelet rendition is not selected regardless of order. -/
theorem c6_counterexample :
    get_image_url (some ⟨some [SeqShape.renderings
        [⟨some "x_gr.tiff", none, some "image/tiff"⟩,
         ⟨some "x_gs.jp2", none, some "image/jp2"⟩]], none⟩) =
      Except.ok (some "x_gr.tiff") ∧
    ("x_gr.tiff" : String) ≠ "x_gs.jp2" := ⟨rfl, by decide⟩

/-- C6 amended: selection scans the candidate list entry by entry, testing
each entry first against the greyscale/IR-wavelet rule and then against
the monochrome-TIFF rule, returning the first entry that satisfies
either; so with both renditions present, whichever of the two appears
first in the list is returned. -/
theorem c6_first_match_wins (a b : String)
    (ha : endsWithS a "_gs.jp2" = true) (hb : endsWithS b "_gr.tiff" = true) :
    get_image_url (some ⟨some [SeqShape.renderings
        [⟨some a, none, some "image/jp2"⟩, ⟨some b, none, some "image/tiff"⟩]],
        none⟩) = Except.ok (some a) ∧
    get_image_url (some ⟨some [SeqShape.renderings
        [⟨some b, none, some "image/tiff"⟩, ⟨some a, none, some "image/jp2"⟩]],
        none⟩) = Except.ok (some b) := by
  constructor <;>
    simp [get_image_url, get_image_url_seqs, seq_renderings, scan_renderings,
      rendering_matches_jp2, rendering_matches_tiff, ha, hb]

/-- C6 witness: the order dependence at concrete rendition locations. -/
theorem c6_first_match_wins_witness :
    get_image_url (some ⟨some [SeqShape.renderings
        [⟨some "x_gs.jp2", none, some "image/jp2"⟩,
         ⟨some "y_gr.tiff", none, some "image/tiff"⟩]], none⟩) =
      Except.ok (some "x_gs.jp2") ∧
    get_image_url (some ⟨some [SeqShape.renderings
        [⟨some "y_gr.tiff", none, some "image/tiff"⟩,
         ⟨some "x_gs.jp2", none, some "image/jp2"⟩]], none⟩) =
      Except.ok (some "y_gr.tiff") :=
  c6_first_match_wins "x_gs.jp2" "y_gr.tiff" (by decide) (by decide)

/-- C7 counterexample: for a reversed-set identifier materialized from a
remote TIFF with the mirror flag set, the first run auto-flips once and
suppresses the mirror (one left-right flip), but the second run with the
same mirror request hits the cached-TIFF early return and leaves the image
untouched — the explicit mirror request is not honored on the later run. -/
theorem c7_counterexample :
    get_roll_image "yt837kd6607"
        (some "https://stacks.stanford.edu/file/druid/yt837kd6607_gr.tif")
        (some "welte-red") false true false (fun _ => some (Img.raw "src")) [] =
      Except.ok ([("images/yt837kd6607_gr.tif", Img.flipLR (Img.raw "src")),
                  ("images/yt837kd6607_gr.tif", Img.raw "src")],
                 "images/yt837kd6607_gr.tif") ∧
    get_roll_image "yt837kd6607"
        (some "https://stacks.stanford.edu/file/druid/yt837kd6607_gr.tif")
        (some "welte-red") false true false (fun _ => some (Img.raw "src"))
        [("images/yt837kd6607_gr.tif", Img.flipLR (Img.raw "src")),
         ("images/yt837kd6607_gr.tif", Img.raw "src")] =
      Except.ok ([("images/yt837kd6607_gr.tif", Img.flipLR (Img.raw "src")),
                  ("images/yt837kd6607_gr.tif", Img.raw "src")],
                 "images/yt837kd6607_gr.tif") ∧
    lrCount (Img.flipLR (Img.raw "src")) = 1 := ⟨rfl, rfl, rfl⟩

/-- C7 amended: when the automatic reversed-orientation flip occurs during
a materialization the explicit mirror request is suppressed for that
invocation (the image ends up flipped exactly once); on a later run the
request is honored for a wavelet(JP2)-sourced asset, whose cache hit
reaches the mirror step, but for a TIFF-sourced asset the cache hit
returns before the mirror step and the request is ignored. -/
theorem c7_mirror_policy (img : Img) :
    get_roll_image "yt837kd6607"
        (some "https://stacks.stanford.edu/file/druid/yt837kd6607_gs.jp2")
        (some "welte-red") false true false (fun _ => some img) [] =
      Except.ok ([("images/yt837kd6607.tiff", Img.flipLR img),
                  ("images/yt837kd6607.tiff", img),
                  ("images/yt837kd6607.jp2", img)], "images/yt837kd6607.tiff") ∧
    get_roll_image "yt837kd6607"
        (some "https://stacks.stanford.edu/file/druid/yt837kd6607_gs.jp2")
        (some "welte-red") false true false (fun _ => some img)
        [("images/yt837kd6607.tiff", Img.flipLR img),
         ("images/yt837kd6607.tiff", img),
         ("images/yt837kd6607.jp2", img)] =
      Except.ok ([("images/yt837kd6607.tiff", Img.flipLR (Img.flipLR img)),
                  ("images/yt837kd6607.tiff", Img.flipLR img),
                  ("images/yt837kd6607.tiff", img),
                  ("images/yt837kd6607.jp2", img)], "images/yt837kd6607.tiff") ∧
    get_roll_image "yt837kd6607"
        (some "https://stacks.stanford.edu/file/druid/yt837kd6607_gr.tif")
        (some "welte-red") false true false (fun _ => some img)
        [("images/yt837kd6607_gr.tif", Img.flipLR img),
         ("images/yt837kd6607_gr.tif", img)] =
      Except.ok ([("images/yt837kd6607_gr.tif", Img.flipLR img),
                  ("images/yt837kd6607_gr.tif", img)],
                 "images/yt837kd6607_gr.tif") := ⟨rfl, rfl, rfl⟩

/-- C8: for every identifier in the reversed-orientation set, a first
materialization (here from a greyscale JP2 source, with the download
succeeding) leaves the cached image horizontally mirrored exactly once
relative to the raw source bytes, and a later run against the cached file
performs no further automatic flip — it returns the filesystem unchanged. -/
theorem c8_flip_once_at_materialization (druid : String)
    (h : druid ∈ REVERSED_IMAGES) (img : Img) (roll_type : Option String)
    (gen2scan : Bool) :
    ∃ fs1 c,
      get_roll_image druid
          (some ("https://stacks.stanford.edu/file/druid/" ++ druid ++ "_gs.jp2"))
          roll_type false false gen2scan (fun _ => some img) [] =
        Except.ok (fs1, "images/" ++ druid ++ ".tiff") ∧
      lookupS fs1 ("images/" ++ druid ++ ".tiff") = some c ∧
      lrCount c = lrCount img + 1 ∧
      get_roll_image druid
          (some ("https://stacks.stanford.edu/file/druid/" ++ druid ++ "_gs.jp2"))
          roll_type false false gen2scan (fun _ => some img) fs1 =
        Except.ok (fs1, "images/" ++ druid ++ ".tiff") := by
  simp only [REVERSED_IMAGES, List.mem_cons, List.not_mem_nil, or_false] at h
  rcases h with rfl | rfl | rfl | rfl | rfl | rfl | rfl | rfl | rfl | rfl | rfl | rfl | rfl <;>
    exact ⟨_, _, rfl, rfl, by simp [lrCount, apply_ite lrCount], rfl⟩

/-- C8 witness: the one-time flip at a concrete reversed-set identifier. -/
theorem c8_flip_once_witness :
    ∃ fs1 c,
      get_roll_image "yt837kd6607"
          (some ("https://stacks.stanford.edu/file/druid/" ++ "yt837kd6607" ++ "_gs.jp2"))
          (some "welte-red") false false false (fun _ => some (Img.raw "src")) [] =
        Except.ok (fs1, "images/" ++ "yt837kd6607" ++ ".tiff") ∧
      lookupS fs1 ("images/" ++ "yt837kd6607" ++ ".tiff") = some c ∧
      lrCount c = lrCount (Img.raw "src") + 1 ∧
      get_roll_image "yt837kd6607"
          (some ("https://stacks.stanford.edu/file/druid/" ++ "yt837kd6607" ++ "_gs.jp2"))
          (some "welte-red") false false false (fun _ => some (Img.raw "src")) fs1 =
        Except.ok (fs1, "images/" ++ "yt837kd6607" ++ ".tiff") :=
  c8_flip_once_at_materialization "yt837kd6607" (by decide) (Img.raw "src")
    (some "welte-red") false

/-- C1 counterexample: in a two-identifier batch, the first item's cached
analysis report lacking the payload markers raises `AttributeError`, which
escapes the loop body and aborts the batch — the second identifier is
never processed, so the loop does not proceed unconditionally. -/
theorem c1_counterexample :
    main_loop c1Args c1Net ["ab123cd4567", "zz999zz9999"] c1World =
      (c1World1, some PyErr.attributeError) ∧
    c1World1.processed = ["ab123cd4567"] := by decide

/-- C1 amended: the orchestrator proceeds to the next identifier exactly
when the current item is in the skip set or its processing completes
without raising; an exception escaping one item's processing (such as the
`AttributeError` from a report missing a payload marker) aborts the rest
of the batch. -/
theorem c1_item_boundary (args : Args) (net : Net) (druid : String)
    (rest : List String) (w : World) (h : druid ∉ ROLLS_TO_SKIP) :
    (∀ w1, process_druid args net w druid = (w1, none) →
        main_loop args net (druid :: rest) w = main_loop args net rest w1) ∧
    (∀ w1 e, process_druid args net w druid = (w1, some e) →
        main_loop args net (druid :: rest) w = (w1, some e)) := by
  constructor
  · intro w1 hp
    simp [main_loop, h, hp]
  · intro w1 e hp
    simp [main_loop, h, hp]

/-- C1 witness: the abort behaviour applied to the concrete batch. -/
theorem c1_item_boundary_witness :
    main_loop c1Args c1Net ["ab123cd4567", "zz999zz9999"] c1World =
      (c1World1, some PyErr.attributeError) :=
  (c1_item_boundary c1Args c1Net "ab123cd4567" ["zz999zz9999"] c1World
      (by decide)).2 c1World1 PyErr.attributeError (by decide)

end RollWrangler

